import Mathlib

/-!
Shallow embedding of the `RAG_Research_Agent` repository
(`utils/pdf_processor.py`, `utils/vector_store.py`, `rag_agent.py`).

Python dicts become structures, machine floats used for font sizes and
similarity scores become exact rationals (only order comparisons and one
truncating conversion are performed on them), and Python exceptions become
`Except` values: a statement that raises `TypeError` or `AttributeError`
is embedded as `Except.error` carrying the offending name, with a comment
pointing at the line of the source that raises.
-/

namespace RagResearchAgent

/-- A Python runtime error relevant to this codebase: `TypeError` from an
unexpected keyword argument, or `AttributeError` from a missing attribute. -/
inductive PyErr where
  | typeError (arg : String)
  | attributeError (attr : String)
deriving DecidableEq

/-! ### Regex patterns

`pdf_processor.py` matches headings and captions with `re.match` against a
small family of anchored patterns built from literals, `\s+`, alternation
and an optional group.  `Pat` embeds exactly that fragment; `Pat.run` is a
backtracking matcher in continuation style, and `reMatch p s` holds iff the
pattern matches a prefix of `s` (which is what `re.match` tests). -/

inductive Pat where
  | lit (s : String)
  | ws
  | seq (a b : Pat)
  | alt (a b : Pat)
  | opt (a : Pat)

/-- After `\s+` has consumed one whitespace character, it may stop or keep
consuming further whitespace; try the continuation at every stop point. -/
def wsTail (k : List Char → Bool) : List Char → Bool
  | [] => k []
  | c :: cs => k (c :: cs) || (c.isWhitespace && wsTail k cs)

def Pat.run : Pat → List Char → (List Char → Bool) → Bool
  | .lit s, cs, k => s.toList.isPrefixOf cs && k (cs.drop s.toList.length)
  | .ws, cs, k =>
      match cs with
      | [] => false
      | c :: rest => c.isWhitespace && wsTail k rest
  | .seq a b, cs, k => a.run cs (fun rest => b.run rest k)
  | .alt a b, cs, k => a.run cs k || b.run cs k
  | .opt a, cs, k => a.run cs k || k cs

/-- `re.match(pattern, s)` succeeds iff the pattern matches some prefix of
`s`. -/
def reMatch (p : Pat) (s : String) : Bool :=
  p.run s.toList (fun _ => true)

/-- `PDFProcessor.section_patterns`, in source order (`__init__`). -/
def sectionPatterns : List Pat := [
  .lit "abstract",
  .lit "introduction",
  .seq (.lit "related") (.seq .ws (.lit "work")),
  .seq (.lit "literature") (.seq .ws (.lit "review")),
  .lit "background",
  .seq (.lit "method") (.opt (.alt (.lit "s") (.lit "ology"))),
  .seq (.lit "experiment") (.opt (.alt (.lit "s") (.seq (.lit "al") (.seq .ws (.lit "setup"))))),
  .lit "implementation",
  .seq (.lit "result") (.opt (.lit "s")),
  .lit "discussion",
  .seq (.lit "conclusion") (.opt (.lit "s")),
  .seq (.lit "future") (.seq .ws (.lit "work")),
  .seq (.lit "reference") (.opt (.lit "s")),
  .seq (.lit "acknowledgment") (.opt (.lit "s"))]

/-! ### Python string primitives

The Python string methods the sources use (`lower`, `strip`, `split`,
`join`, `title`) are embedded directly as structural functions on the
character list of a `String`, mirroring their (ASCII) semantics. -/

/-- The whitespace characters of Python's `str` methods (ASCII range). -/
def pyIsSpace (c : Char) : Bool :=
  c = ' ' || c = '\t' || c = '\n' || c = '\x0b' || c = '\x0c' || c = '\r'

/-- Python `s.lower()` (ASCII). -/
def pyLower (s : String) : String := String.mk (s.data.map Char.toLower)

/-- Python `s.strip()`: drop leading and trailing whitespace. -/
def pyStrip (s : String) : String :=
  String.mk (((s.data.dropWhile pyIsSpace).reverse.dropWhile pyIsSpace).reverse)

/-- Python `s.split()` (no separator): maximal runs of non-whitespace, no
empty words.  `cur` carries the current word reversed. -/
def pyWordsGo : List Char → List Char → List String
  | [], cur => if cur.isEmpty then [] else [String.mk cur.reverse]
  | c :: cs, cur =>
      if pyIsSpace c then
        if cur.isEmpty then pyWordsGo cs []
        else String.mk cur.reverse :: pyWordsGo cs []
      else pyWordsGo cs (c :: cur)

def pyWords (s : String) : List String := pyWordsGo s.data []

/-- Python `sep.join(parts)`. -/
def pyJoin (sep : String) : List String → String
  | [] => ""
  | [x] => x
  | x :: xs => x ++ sep ++ pyJoin sep xs

/-- Python `text.split()[0]` (the sources only index after a successful
match, so the word list is non-empty there). -/
def firstWord (s : String) : String := (pyWords s).headD ""

/-- Python `len(text.split())`. -/
def countWords (s : String) : Nat := (pyWords s).length

/-- Python `max(a, b)` on two floats (modelled as rationals): the second
argument wins only when strictly larger, ties keep the first. -/
def pyMax (a b : ℚ) : ℚ := if a < b then b else a

/-- `PDFProcessor._detect_section`, embedded literally.  In the source the
`return None` sits *inside* the `for pattern in self.section_patterns:`
body (at the same indentation as the `if`), so the first loop iteration
always returns: only the head pattern (`^abstract`) is ever consulted, and
every other heading yields `None`.  The empty-pattern-list case falls out
of the loop and returns the implicit `None`. -/
def detect_section (text : String) : Option String :=
  let tl := pyStrip (pyLower text)
  match sectionPatterns with
  | [] => none
  | p :: _ => if reMatch p tl then some (firstWord tl) else none

/-- Modelled from the spec: the intended section detection of §4.2/§9 —
case-fold and trim the heading, test it against every pattern of the
ordered known-section list (prefix match, first match wins, scanning all
patterns before giving up) and return the canonical section name.  This is
the behaviour the spec declares authoritative in place of the literal
return-inside-a-loop shape of `_detect_section`; it exists only to exhibit
the divergence. -/
def detect_section_intended (text : String) : Option String :=
  let tl := pyStrip (pyLower text)
  (["abstract", "introduction", "related work", "background", "methods",
    "experiments", "results", "discussion", "conclusion", "future work",
    "references", "acknowledgments"]).findSome?
    (fun name => if name.data.isPrefixOf tl.data then some name else none)

/-! ### pymupdf documents and the Layout Extractor -/

/-- One pymupdf span: a run of text together with its font size. -/
structure Span where
  text : String := ""
  size : ℚ := 0
deriving DecidableEq

structure PLine where
  spans : List Span := []
deriving DecidableEq

/-- An abstract image on a page, as seen by `_extract_images`:
`extractable` abstracts whether the xref / pixel-data / bbox / caption
resolution inside the per-image `try` block succeeds. -/
structure PageImage where
  extractable : Bool := true
  caption : Option String := none
deriving DecidableEq

/-- One pymupdf block: `type` 0 is text, other values are skipped. -/
structure PBlock where
  type : Nat := 0
  lines : List PLine := []
deriving DecidableEq

structure Page where
  blocks : List PBlock := []
  images : List PageImage := []
deriving DecidableEq

/-- One pdfplumber page: its extracted tables (cells may be missing). -/
structure PlumberPage where
  tables : List (List (List (Option String))) := []
deriving DecidableEq

/-- A PDF document, as the two libraries see it: `pages` is the pymupdf
view walked by the text and image extractors, `plumberPages` the
pdfplumber view walked by the table extractor. -/
structure PDF where
  pages : List Page := []
  plumberPages : List PlumberPage := []
deriving DecidableEq

/-- Keyword parameters accepted by `pymupdf.open` (the `Document`
constructor). -/
def pymupdfOpenParams : List String :=
  ["filename", "stream", "filetype", "rect", "width", "height", "fontsize"]

/-- `pymupdf.open(...)` with the given keyword-argument names: an unknown
keyword raises `TypeError`, otherwise the document opens. -/
def pymupdf_open (kwargs : List String) (pdf : PDF) : Except PyErr PDF :=
  match kwargs.filter (fun k => !(pymupdfOpenParams.contains k)) with
  | [] => Except.ok pdf
  | bad :: _ => Except.error (PyErr.typeError bad)

/-- One record of `_extract_text_with_structure`'s output list
(`section` is a Lean keyword, hence `sectionName`). -/
structure TextBlock where
  text : String
  page : Nat
  sectionName : String
  heading : Option String
  font_size : ℚ
  is_heading : Bool
deriving DecidableEq

/-- The span loop of `_extract_text_with_structure`: for each span with
non-empty text the source executes `block_text = text + " "` — a plain
assignment, not `+=`, so the accumulator is *overwritten* and only the last
non-empty span survives — and `max_font_size = max(max_font_size, font_size)`. -/
def spanAccum (acc : String × ℚ) (s : Span) : String × ℚ :=
  if s.text ≠ "" then (s.text ++ " ", pyMax acc.2 s.size) else acc

def blockTextAndFont (b : PBlock) : String × ℚ :=
  b.lines.foldl (fun acc ln => ln.spans.foldl spanAccum acc) ("", 0)

/-- The block loop of `_extract_text_with_structure` on one page: skip
non-text blocks, run the span loop, strip, skip empty text, classify as
heading when the max font size exceeds 12, update `current_section` when a
heading matches a section pattern (Python truthiness: an empty detected
string would also leave the section unchanged), and emit the record. -/
def processPageBlocks (pageNum : Nat) : List PBlock → String → List TextBlock × String
  | [], sec => ([], sec)
  | b :: rest, sec =>
      if b.type ≠ 0 then processPageBlocks pageNum rest sec
      else
        let bf := blockTextAndFont b
        let bt := pyStrip bf.1
        if bt = "" then processPageBlocks pageNum rest sec
        else
          let isHeading : Bool := decide (bf.2 > 12)
          let sec2 :=
            if isHeading then
              match detect_section bt with
              | some s => if s = "" then sec else s
              | none => sec
            else sec
          let tb : TextBlock :=
            { text := bt, page := pageNum, sectionName := sec2,
              heading := if isHeading then some bt else none,
              font_size := bf.2, is_heading := isHeading }
          let res := processPageBlocks pageNum rest sec2
          (tb :: res.1, res.2)

/-- The page loop: `enumerate(doc, start=1)`, threading `current_section`
across pages. -/
def extractPagesGo : List Page → Nat → String → List TextBlock
  | [], _, _ => []
  | p :: rest, n, sec =>
      let res := processPageBlocks n p.blocks sec
      res.1 ++ extractPagesGo rest (n + 1) res.2

/-- `PDFProcessor._extract_text_with_structure`: opens the document with
the valid keywords `stream`/`filetype` and walks pages and blocks with
`current_section` initialised to `"Unknown"`. -/
def extract_text_with_structure (pdf : PDF) : Except PyErr (List TextBlock) := do
  let doc ← pymupdf_open ["stream", "filetype"] pdf
  Except.ok (extractPagesGo doc.pages 1 "Unknown")

/-! ### Media Extractor -/

/-- One record in `_extract_images`' output (the PIL pixel data and the
bbox geometry are carried along in the source but never branched on; the
fields the pipeline consumes are kept). -/
structure ImageItem where
  page : Nat
  caption : Option String
  image_index : Nat
deriving DecidableEq

/-- The per-image loop on one page: each image sits in a `try` block, and
an image whose resolution fails is skipped (`except` prints and
continues).  In the running source every image is in fact skipped, since
`_find_image_caption` reads `img_rect.xy` — `Rect` has no such attribute —
and the resulting `AttributeError` is swallowed by this very `except`; the
loop is unreachable anyway, see `extract_images`. -/
def imagesOnPage (pageNum : Nat) (imgs : List PageImage) : List ImageItem :=
  (imgs.enum).filterMap
    (fun p => if p.2.extractable then
        some { page := pageNum, caption := p.2.caption, image_index := p.1 }
      else none)

/-- `PDFProcessor._extract_images`.  The very first statement is
`doc = pymupdf.open(stream=pdf_bytes, file_type="pdf")`: `pymupdf.open`
accepts `filetype` but not `file_type`, so the call raises `TypeError` for
every input and the page/image loop below the open is unreachable. -/
def extract_images (pdf : PDF) : Except PyErr (List ImageItem) := do
  let doc ← pymupdf_open ["stream", "file_type"] pdf
  Except.ok (((doc.pages.enum).map (fun p => imagesOnPage (p.1 + 1) p.2.images)).flatten)

/-- One record in `_extract_tables`' output. -/
structure TableItem where
  data : List (List String)
  page : Nat
  caption : Option String
  table_index : Nat
  num_rows : Nat
  num_cols : Nat
  headers : List String
deriving DecidableEq

/-- `cell.strip() if cell else ""`: a missing (or empty, hence falsy) cell
normalises to the empty string, a present one is stripped. -/
def cleanCell (cell : Option String) : String :=
  match cell with
  | some s => if s = "" then "" else pyStrip s
  | none => ""

def cleanRow (row : List (Option String)) : List String := row.map cleanCell

/-- `PDFProcessor._find_table_caption`.  Its first statement is
`text = page.get_text()`, but a pdfplumber `Page` provides `extract_text`,
not `get_text`, so the call raises `AttributeError` on every invocation;
the caption scan below it (including the `next_line.startwith` misspelling
it would hit next) is unreachable. -/
def find_table_caption (_page : PlumberPage) (_tableIndex : Nat) :
    Except PyErr (Option String) :=
  Except.error (PyErr.attributeError "get_text")

/-- The per-table loop of `_extract_tables` on one page: tables with fewer
than 2 rows are skipped, cells are cleaned, and the caption lookup runs
with no surrounding `try`, so its exception propagates out of the whole
extraction. -/
def tablesOnPage (page : PlumberPage) (pageNum : Nat) :
    List (List (List (Option String))) → Nat → Except PyErr (List TableItem)
  | [], _ => Except.ok []
  | t :: rest, idx =>
      if t.isEmpty || t.length < 2 then tablesOnPage page pageNum rest (idx + 1)
      else do
        let cleaned := t.map cleanRow
        let caption ← find_table_caption page idx
        let items ← tablesOnPage page pageNum rest (idx + 1)
        Except.ok
          ({ data := cleaned, page := pageNum, caption := caption, table_index := idx,
             num_rows := cleaned.length,
             num_cols := (cleaned.headD []).length,
             headers := cleaned.headD [] } :: items)

def extractTablesGo : List PlumberPage → Nat → Except PyErr (List TableItem)
  | [], _ => Except.ok []
  | p :: rest, n => do
      let items ← tablesOnPage p n p.tables 0
      let more ← extractTablesGo rest (n + 1)
      Except.ok (items ++ more)

/-- `PDFProcessor._extract_tables`: pdfplumber walk over the pages
(`enumerate(pdf.pages, start=1)`). -/
def extract_tables (pdf : PDF) : Except PyErr (List TableItem) :=
  extractTablesGo pdf.plumberPages 1

/-! ### Chunker -/

structure ChunkMeta where
  chunk_id : Nat
  sectionName : String
  page : Nat
  heading : Option String
  word_count : Nat
deriving DecidableEq

structure Chunk where
  text : String
  metadata : ChunkMeta
deriving DecidableEq

/-- The block loop of `_create_chunks`, threading the accumulator
(`current_chunk_text`, `current_word_count`, `chunk_id`) and the tracked
metadata (`current_section`, `current_page`, `current_heading`).  A heading
block sets all three trackers from itself and `continue`s.  A body block
first updates the word count and trackers and then evaluates
`current_word_count + block_word > self.chunks_size` — but `__init__`
stores the threshold as `chunk_size`, and `chunks_size` is not an
attribute of `PDFProcessor`, so that comparison raises `AttributeError`
and the rest of the loop body is unreachable.  After the loop the trailing
non-empty accumulator is sealed into a final chunk. -/
def createChunksGo :
    List TextBlock → List String → Nat → Nat → String → Nat → Option String →
    Except PyErr (List Chunk)
  | [], acc, wc, cid, sec, pg, hd =>
      if acc.isEmpty then Except.ok []
      else Except.ok [{ text := pyJoin " " acc,
                        metadata := { chunk_id := cid, sectionName := sec, page := pg,
                                      heading := hd, word_count := wc } }]
  | b :: rest, acc, wc, cid, _sec, _pg, _hd =>
      if b.is_heading then createChunksGo rest acc wc cid b.text b.page (some b.text)
      else Except.error (PyErr.attributeError "chunks_size")

/-- `PDFProcessor._create_chunks`, embedded literally (initial trackers:
section `"unknown"`, page 1, heading `None`). -/
def create_chunks (blocks : List TextBlock) : Except PyErr (List Chunk) :=
  createChunksGo blocks [] 0 0 "unknown" 1 none

/-- `_create_chunks` with the attribute slip repaired: `self.chunks_size`
read as the `chunk_size` configured in `__init__`, everything else kept
verbatim — in particular the seal path still stamps the sealed chunk with
`current_section`/`current_page` *after* they were updated from the block
that triggers the seal (the first block of the next chunk).  Used to
exhibit the behaviour of the otherwise-unreachable chunking logic. -/
def createChunksFixedGo (chunkSize : Nat) :
    List TextBlock → List String → Nat → Nat → String → Nat → Option String → List Chunk
  | [], acc, wc, cid, sec, pg, hd =>
      if acc.isEmpty then []
      else [{ text := pyJoin " " acc,
              metadata := { chunk_id := cid, sectionName := sec, page := pg,
                            heading := hd, word_count := wc } }]
  | b :: rest, acc, wc, cid, _sec, _pg, hd =>
      if b.is_heading then
        createChunksFixedGo chunkSize rest acc wc cid b.text b.page (some b.text)
      else
        let bw := countWords b.text
        let sec2 := b.sectionName
        let pg2 := b.page
        if wc + bw > chunkSize ∧ acc ≠ [] then
          { text := pyJoin " " acc,
            metadata := { chunk_id := cid, sectionName := sec2, page := pg2,
                          heading := hd, word_count := wc } } ::
            createChunksFixedGo chunkSize rest [b.text] bw (cid + 1) sec2 pg2 hd
        else
          createChunksFixedGo chunkSize rest (acc ++ [b.text]) (wc + bw) cid sec2 pg2 hd

def create_chunks_fixed (chunkSize : Nat) (blocks : List TextBlock) : List Chunk :=
  createChunksFixedGo chunkSize blocks [] 0 0 "unknown" 1 none

/-! ### Headings and the top-level pipeline -/

structure HeadingRec where
  heading : String
  page : Nat
  sectionName : String
deriving DecidableEq

/-- `PDFProcessor._extract_headings`. -/
def extract_headings (blocks : List TextBlock) : List HeadingRec :=
  blocks.filterMap
    (fun b => if b.is_heading then
        some { heading := b.text, page := b.page, sectionName := b.sectionName }
      else none)

/-- `self._create_chunks_with_metadata(text_data)` as called by
`process_pdf`: `PDFProcessor` defines `_create_chunks`, not
`_create_chunks_with_metadata`, so the attribute lookup raises
`AttributeError` and no chunking runs through this call. -/
def create_chunks_with_metadata (_blocks : List TextBlock) : Except PyErr (List Chunk) :=
  Except.error (PyErr.attributeError "_create_chunks_with_metadata")

/-- The record `process_pdf` promises to return. -/
structure ProcessResult where
  chunks : List Chunk
  images : List ImageItem
  tables : List TableItem
  headings : List HeadingRec
  file_name : String
deriving DecidableEq

/-- `PDFProcessor.process_pdf`: text, images, tables, chunks, headings, in
source order, assembled into the output record. -/
def process_pdf (pdf : PDF) (fileName : String) : Except PyErr ProcessResult := do
  let text_data ← extract_text_with_structure pdf
  let images ← extract_images pdf
  let tables ← extract_tables pdf
  let chunks ← create_chunks_with_metadata text_data
  let headings := extract_headings text_data
  Except.ok { chunks := chunks, images := images, tables := tables,
              headings := headings, file_name := fileName }

/-! ### Vector store (`utils/vector_store.py`) -/

/-- Chunk metadata as stored and retrieved; every key access in the Python
sources is guarded by an `in` test, so each field is optional. -/
structure Meta where
  filename : Option String := none
  page : Option Int := none
  sectionName : Option String := none
deriving DecidableEq

/-- One formatted result of `VectorStore.search` (text, metadata,
similarity `1 - distance`, chroma id). -/
structure RetrievedResult where
  text : String := ""
  metadata : Meta := {}
  similarity : Option ℚ := none
  chunk_id : Option String := none
deriving DecidableEq

/-- One chunk persisted in the chroma collection; `search` only consults
the count and `delete_document` only the id and the filename metadata. -/
structure StoredChunk where
  id : String := ""
  filename : String := ""
deriving DecidableEq

/-- A chromadb `where` filter as `search` builds it. -/
inductive WhereFilter where
  | sectionEq (s : String)
  | filenameEq (s : String)
  | allOf (a b : WhereFilter)
deriving DecidableEq

/-- The `filters` dict taken by `search`. -/
structure Filters where
  sectionName : Option String := none
  filename : Option String := none
deriving DecidableEq

/-- The filter-assembly block of `VectorStore.search`: each condition is
added when `filters.get(...)` is truthy (present and non-empty), a single
condition stands alone and two are combined under `$and`. -/
def buildWhere (filters : Option Filters) : Option WhereFilter :=
  match filters with
  | none => none
  | some f =>
      let conds : List WhereFilter :=
        (match f.sectionName with
         | some s => if s ≠ "" then [WhereFilter.sectionEq s] else []
         | none => []) ++
        (match f.filename with
         | some s => if s ≠ "" then [WhereFilter.filenameEq s] else []
         | none => [])
      match conds with
      | [] => none
      | [c] => some c
      | c1 :: c2 :: _ => some (WhereFilter.allOf c1 c2)

/-- One hit as the chroma query returns it (document text, metadata,
distance, id).  The embedding model and `collection.query` are external
collaborators; `search` takes them as an oracle of this shape. -/
structure QueryHit where
  document : String := ""
  metadata : Meta := {}
  distance : ℚ := 0
  id : String := ""
deriving DecidableEq

/-- `VectorStore.search`: when `collection.count() == 0` it returns the
empty list at once (no embedding, no query); otherwise it builds the
`where` filter, queries the store and maps each hit to a result with
`similarity = 1 - distance`. -/
def search (coll : List StoredChunk)
    (backend : String → Nat → Option WhereFilter → List QueryHit)
    (query : String) (nResults : Nat) (filters : Option Filters) :
    List RetrievedResult :=
  if coll.length = 0 then []
  else
    (backend query nResults (buildWhere filters)).map
      (fun h => { text := h.document, metadata := h.metadata,
                  similarity := some (1 - h.distance), chunk_id := some h.id })

/-- The chroma collection as `delete_document` sees it, together with two
fault flags modelling the external store raising inside `collection.get`
or `collection.delete` (the "underlying store operation fails" case). -/
structure ChromaCollection where
  entries : List StoredChunk := []
  getRaises : Bool := false
  deleteRaises : Bool := false
deriving DecidableEq

/-- The ids `collection.get(where={"filename": {"$eq": filename}})`
returns. -/
def matchingIds (entries : List StoredChunk) (filename : String) : List String :=
  (entries.filter (fun e => e.filename == filename)).map (fun e => e.id)

def collection_get_ids (c : ChromaCollection) (filename : String) :
    Except String (List String) :=
  if c.getRaises then Except.error "collection.get failed"
  else Except.ok (matchingIds c.entries filename)

def collection_delete (c : ChromaCollection) (ids : List String) :
    Except String ChromaCollection :=
  if c.deleteRaises then Except.error "collection.delete failed"
  else Except.ok { c with entries := c.entries.filter (fun e => !(ids.contains e.id)) }

/-- `VectorStore.delete_document`: the whole body sits inside
`try/except`, so any store failure is caught and reported as `False`; a
non-empty id list is deleted and reported as `True`, an empty one as
`False`.  Returns the flag together with the resulting collection. -/
def delete_document (c : ChromaCollection) (filename : String) :
    Bool × ChromaCollection :=
  match collection_get_ids c filename with
  | Except.error _ => (false, c)
  | Except.ok ids =>
      if !ids.isEmpty then
        match collection_delete c ids with
        | Except.error _ => (false, c)
        | Except.ok c2 => (true, c2)
      else (false, c)

/-! ### RAG agent (`rag_agent.py`) -/

/-- Python `str.title()` on the ASCII inputs this code handles: an
alphabetic character is uppercased after a non-alphabetic one and
lowercased otherwise. -/
def pyTitleGo : List Char → Bool → List Char
  | [], _ => []
  | c :: cs, prevAlpha =>
      (if c.isAlpha then (if prevAlpha then c.toLower else c.toUpper) else c) ::
        pyTitleGo cs c.isAlpha

def pyTitle (s : String) : String := String.mk (pyTitleGo s.data false)

/-- Python `int(...)` on an exact rational: truncation toward zero, which
on `num/den` with a positive denominator is T-division of the numerator by
the denominator. -/
def pyInt (q : ℚ) : Int := q.num.tdiv q.den

/-- Multiplication of a rational by a natural number, computed on the
numerator.  (The library's `Rat.mul` is marked irreducible, which would
block kernel evaluation of concrete similarity percentages;
`ratMulNat_eq` below certifies this agrees with `q * n`.) -/
def ratMulNat (q : ℚ) (n : Nat) : ℚ := mkRat (q.num * n) q.den

/-- One source line of `_format_sources`: `"N. "` then, each guarded by a
key-presence test, the 📄-prefixed filename, the page, the `title()`-cased
section and the integer relevance percentage. -/
def sourceLine (i : Nat) (source : RetrievedResult) : String :=
  let md := source.metadata
  let l := toString i ++ ". "
  let l := match md.filename with
    | some f => l ++ "📄 " ++ f
    | none => l
  let l := match md.page with
    | some p => l ++ " (Page " ++ toString p ++ ")"
    | none => l
  let l := match md.sectionName with
    | some s => l ++ " - " ++ pyTitle s
    | none => l
  match source.similarity with
  | some q => l ++ " - Relevance: " ++ toString (pyInt (ratMulNat q 100)) ++ "%"
  | none => l

/-- The source loop of `_format_sources`: each line is appended to the
accumulator followed by `"\n"` (`formatted += source_line + "\n"`). -/
def formatSourcesGo : Nat → List RetrievedResult → String
  | _, [] => ""
  | i, s :: rest => sourceLine i s ++ "\n" ++ formatSourcesGo (i + 1) rest

/-- `RAGAgent._format_sources`: `"No sources found."` for an empty list,
otherwise the `"**Sources:**\n\n"` header followed by the numbered lines. -/
def format_sources (sources : List RetrievedResult) : String :=
  if sources.isEmpty then "No sources found."
  else "**Sources:**\n\n" ++ formatSourcesGo 1 sources

/-- The `[SourceN - Page p, Section: s]` tag of `_build_context` (note the
source writes `f"[Source{i} - "` without a space before the number). -/
def contextSourceInfo (i : Nat) (c : RetrievedResult) : String :=
  let si := "[Source" ++ toString i ++ " - "
  let si := match c.metadata.page with
    | some p => si ++ "Page " ++ toString p
    | none => si
  let si := match c.metadata.sectionName with
    | some s => si ++ ", Section: " ++ s
    | none => si
  si ++ "]"

/-- `RAGAgent._build_context`, embedded literally: the
`return "...".join(context_parts)` sits inside the `for` loop, so the
function returns after formatting the first chunk only; with no chunks the
loop never runs and the function falls through to an implicit `None`. -/
def build_context (chunks : List RetrievedResult) : Option String :=
  match chunks with
  | [] => none
  | c :: _ => some (contextSourceInfo 1 c ++ "\n" ++ c.text ++ "\n")

/-- `RAGAgent._create_prompt`: a long fixed persona/instruction template
with the context and the question interpolated.  No claim depends on the
template prose, so only its head line and the interpolation points are
reproduced; the surrounding instruction text is elided. -/
def create_prompt (question context : String) : String :=
  "**Role** : You are Nick the AI teacher , helping user to answer the question based on the document/documents provided.\n"
    ++ "context: " ++ context ++ "\n        Question: " ++ question ++ "\n        Answer:\n"

/-- The no-result answer of `answer_question`. -/
def noRelevantInfoMessage : String :=
  "I couldn\x27t find any relevant information in the uploaded documents. Please make sure you\x27ve uploaded PDFs first."

/-- The record `answer_question` returns. -/
structure AnswerResult where
  answer : String
  sources : List RetrievedResult
  query : String
deriving DecidableEq

/-- `RAGAgent.answer_question`: search the store; with no relevant chunks
return the fixed no-information answer, empty sources and the echoed
question; otherwise build the context (an f-string renders a `None`
context as `"None"`), assemble the prompt and return the LLM's text with
the retrieved chunks.  `_generate_answer`'s `try/except` always yields a
string, so the LLM call is an oracle `llm : String → String`. -/
def answer_question (coll : List StoredChunk)
    (backend : String → Nat → Option WhereFilter → List QueryHit)
    (llm : String → String)
    (question : String) (nChunks : Nat) (filters : Option Filters) : AnswerResult :=
  let relevant := search coll backend question nChunks filters
  if relevant.isEmpty then
    { answer := noRelevantInfoMessage, sources := [], query := question }
  else
    { answer := llm (create_prompt question ((build_context relevant).getD "None")),
      sources := relevant, query := question }

/-! ### Concrete inputs used by the claim theorems -/

/-- A text block of one line with two spans, both at font size 10. -/
def twoSpanBlock : PBlock :=
  { type := 0,
    lines := [{ spans := [{ text := "Hello", size := 10 }, { text := "World", size := 10 }] }] }

/-- A PDF with one page holding one text block of two spans. -/
def twoSpanPDF : PDF := { pages := [{ blocks := [twoSpanBlock] }] }

/-- A single body (non-heading) block of two words. -/
def twoWordBlock : TextBlock :=
  { text := "hello world", page := 1, sectionName := "introduction",
    heading := none, font_size := 10, is_heading := false }

/-- Three body blocks of 3, 3 and 2 words, each alone under a threshold of 4. -/
def smallBodyBlocks : List TextBlock :=
  [{ text := "w1 w2 w3", page := 1, sectionName := "results", heading := none,
     font_size := 10, is_heading := false },
   { text := "w4 w5 w6", page := 1, sectionName := "results", heading := none,
     font_size := 10, is_heading := false },
   { text := "w7 w8", page := 1, sectionName := "results", heading := none,
     font_size := 10, is_heading := false }]

/-- Two body blocks on different pages and sections: 4 words on page 1
(introduction), then 3 words on page 2 (methods). -/
def crossPageBlocks : List TextBlock :=
  [{ text := "w1 w2 w3 w4", page := 1, sectionName := "introduction", heading := none,
     font_size := 10, is_heading := false },
   { text := "w5 w6 w7", page := 2, sectionName := "methods", heading := none,
     font_size := 10, is_heading := false }]

/-- The single source record of the spec's formatting scenario. -/
def scenarioSource : RetrievedResult :=
  { text := "chunk text",
    metadata := { filename := some "p.pdf", page := some 2, sectionName := some "results" },
    similarity := some (mkRat 842 1000) }

/-- A pdfplumber page carrying one well-formed two-row table. -/
def oneTablePDF : PDF :=
  { pages := [],
    plumberPages := [{ tables := [[[some "h1", some "h2"], [some "a", none]]] }] }

/-! ### Theorems for the claims -/

/-- Claim C1: the spec says `process_pdf` returns, for every openable PDF,
a record with keys chunks/images/tables/headings/file_name (empty lists for
a zero-page document) and raises no uncaught exception.  The code raises on
every input: `_extract_images` opens the document with the unknown keyword
`file_type` (TypeError), and even past that, `process_pdf` calls the
nonexistent method `_create_chunks_with_metadata` (AttributeError). -/
theorem c1_process_pdf_always_raises (pdf : PDF) (fileName : String) :
    process_pdf pdf fileName = Except.error (PyErr.typeError "file_type") := rfl

theorem c1_process_pdf_always_raises_witness :
    process_pdf { pages := [], plumberPages := [] } "empty.pdf" =
      Except.error (PyErr.typeError "file_type") :=
  c1_process_pdf_always_raises { pages := [], plumberPages := [] } "empty.pdf"

/-- Claim C2: the spec says section detection tests the heading against
every pattern of the ordered list, scanning all patterns before giving up.
The source returns `None` from inside the first loop iteration, so only
the first pattern (`^abstract`) is ever consulted: `"Introduction"` is
rejected even though the second pattern matches it (the spec-intended
scan-all detection accepts it), while `"Abstract"` still matches. -/
theorem c2_detect_section_only_first_pattern :
    detect_section "Introduction" = none ∧
    detect_section "Abstract" = some "abstract" ∧
    detect_section_intended "Introduction" = some "introduction" :=
  ⟨rfl, rfl, rfl⟩

/-- Claim C3: the spec says an emitted block's text is the concatenation of
all its span runs (trimmed).  The span loop executes
`block_text = text + " "` (assignment, not `+=`), so only the last
non-empty span survives: a block with spans "Hello", "World" is emitted
with text `"World"`, not `"Hello World"`. -/
theorem c3_span_text_overwritten :
    extract_text_with_structure twoSpanPDF =
      Except.ok [{ text := "World", page := 1, sectionName := "Unknown",
                   heading := none, font_size := 10, is_heading := false }] := rfl

/-- Claim C4: the spec says the chunker conserves word counts and maps an
empty block sequence to an empty chunk sequence.  The empty case holds,
but on any sequence containing a body block `_create_chunks` reads the
nonexistent attribute `chunks_size` (the field is `chunk_size`) and raises
`AttributeError`, so no chunks are produced at all. -/
theorem c4_create_chunks_attribute_error :
    create_chunks [] = Except.ok [] ∧
    create_chunks [twoWordBlock] = Except.error (PyErr.attributeError "chunks_size") :=
  ⟨rfl, rfl⟩

/-- Claim C5: the spec bounds every non-final chunk by the configured
threshold when each body block alone fits under it.  The literal chunker
raises `AttributeError` on such input and produces no chunks; with the
`chunks_size`/`chunk_size` slip repaired, the same input (threshold 4)
does yield chunks of 3, 3 and 2 words, consistent with the bound. -/
theorem c5_chunker_never_produces_chunks :
    create_chunks smallBodyBlocks = Except.error (PyErr.attributeError "chunks_size") ∧
    (create_chunks_fixed 4 smallBodyBlocks).map (fun c => c.metadata.word_count) =
      [3, 3, 2] :=
  ⟨rfl, rfl⟩

/-- Claim C6: the spec says a chunk's page/section/heading come from the
last block folded into it.  The literal chunker raises before sealing any
chunk; and even with the attribute slip repaired, the seal path stamps the
chunk with `current_section`/`current_page` already updated from the block
that starts the *next* chunk: with threshold 5, the chunk holding only the
page-1 "introduction" block is stamped page 2, section "methods". -/
theorem c6_chunk_metadata_not_trailing_edge :
    create_chunks crossPageBlocks = Except.error (PyErr.attributeError "chunks_size") ∧
    (create_chunks_fixed 5 crossPageBlocks).map
        (fun c => (c.text, c.metadata.page, c.metadata.sectionName)) =
      [("w1 w2 w3 w4", 2, "methods"), ("w5 w6 w7", 2, "methods")] :=
  ⟨rfl, rfl⟩

/-- The numerator-level product used in `sourceLine` agrees with true
rational multiplication. -/
theorem ratMulNat_eq (q : ℚ) (n : Nat) : ratMulNat q n = q * n := by
  rw [ratMulNat, Rat.mkRat_eq_div]
  push_cast
  rw [mul_div_right_comm, Rat.num_div_den]

/-- The scenario similarity value is exactly 0.842. -/
theorem scenarioSource_similarity : scenarioSource.similarity = some (842 / 1000 : ℚ) := by
  rw [scenarioSource]
  norm_num [Rat.mkRat_eq_div]

/-- Claim C7 counterexample: formatting the spec's single-source scenario
does not yield the claimed string — the formatter appends `"\n"` after
every source line, so the output carries a trailing newline the claim
omits. -/
theorem c7_trailing_newline_counterexample :
    format_sources [scenarioSource] ≠
      "**Sources:**\n\n1. 📄 p.pdf (Page 2) - Results - Relevance: 84%" := by
  decide

/-- Claim C7 as amended: formatting the scenario source yields exactly the
claimed line followed by a trailing newline, and an empty source list
yields exactly "No sources found.". -/
theorem c7_format_sources_exact :
    format_sources [scenarioSource] =
      "**Sources:**\n\n1. 📄 p.pdf (Page 2) - Results - Relevance: 84%\n" ∧
    format_sources [] = "No sources found." :=
  ⟨rfl, rfl⟩

/-- Claim C8: the spec says both media extractors skip a failing item and
never abort the run.  Table-caption resolution calls the nonexistent
pdfplumber method `get_text` and `_extract_tables` has no `try/except`, so
the very first well-formed table aborts the whole extraction; the image
extractor cannot even open the document (`file_type` keyword), aborting
before any per-item handling. -/
theorem c8_per_item_failure_aborts_run :
    extract_tables oneTablePDF = Except.error (PyErr.attributeError "get_text") ∧
    extract_images oneTablePDF = Except.error (PyErr.typeError "file_type") :=
  ⟨rfl, rfl⟩

/-- Claim C9: with an empty store, `search` returns `[]` without touching
the embedding model or the query backend, and `answer_question` returns
the graceful no-relevant-information answer with empty sources and the
question echoed. -/
theorem c9_empty_store_graceful
    (backend : String → Nat → Option WhereFilter → List QueryHit)
    (llm : String → String) (question : String) (nChunks : Nat)
    (filters : Option Filters) :
    search [] backend question nChunks filters = [] ∧
    answer_question [] backend llm question nChunks filters =
      { answer := noRelevantInfoMessage, sources := [], query := question } :=
  ⟨rfl, rfl⟩

theorem c9_empty_store_graceful_witness :
    search [] (fun _ _ _ => []) "What is the method" 3 none = [] ∧
    answer_question [] (fun _ _ _ => []) (fun _ => "") "What is the method" 3 none =
      { answer := noRelevantInfoMessage, sources := [], query := "What is the method" } :=
  c9_empty_store_graceful (fun _ _ _ => []) (fun _ => "") "What is the method" 3 none

/-- The ids returned for a filename are empty exactly when no stored chunk
carries that filename. -/
theorem matchingIds_eq_nil_iff (entries : List StoredChunk) (f : String) :
    matchingIds entries f = [] ↔ ∀ e ∈ entries, e.filename ≠ f := by
  simp [matchingIds, List.map_eq_nil_iff, List.filter_eq_nil_iff]

/-- A stored chunk carrying the filename contributes its id to the
returned id list. -/
theorem mem_matchingIds (entries : List StoredChunk) (f : String)
    (e : StoredChunk) (he : e ∈ entries) (hf : e.filename = f) :
    e.id ∈ matchingIds entries f := by
  simp only [matchingIds, List.mem_map, List.mem_filter]
  exact ⟨e, ⟨he, by simp [hf]⟩, rfl⟩

/-- Claim C10: `delete_document` always returns a boolean (the model is a
total function — the source wraps its whole body in `try/except`); it
returns `True` exactly when the store operations succeed and at least one
stored chunk carries the filename, in which case no chunk with that
filename survives; on no match or on a store failure it returns `False`. -/
theorem c10_delete_document_contract (c : ChromaCollection) (f : String) :
    ((delete_document c f).1 = true ↔
      (c.getRaises = false ∧ c.deleteRaises = false ∧
        ∃ e ∈ c.entries, e.filename = f)) ∧
    (∀ e ∈ (delete_document c f).2.entries,
      (delete_document c f).1 = true → e.filename ≠ f) := by
  cases hg : c.getRaises with
  | true =>
    have hdd1 : (delete_document c f).1 = false := by
      simp [delete_document, collection_get_ids, hg]
    refine ⟨?_, ?_⟩
    · rw [hdd1]
      refine ⟨fun h0 => (nomatch h0), ?_⟩
      rintro ⟨hgf, -, -⟩
      cases hgf
    · intro e he htrue
      rw [hdd1] at htrue
      cases htrue
  | false =>
    cases hms : matchingIds c.entries f with
    | nil =>
      have hnone := (matchingIds_eq_nil_iff c.entries f).mp hms
      have hdd1 : (delete_document c f).1 = false := by
        simp [delete_document, collection_get_ids, hg, hms]
      refine ⟨?_, ?_⟩
      · rw [hdd1]
        refine ⟨fun h0 => (nomatch h0), ?_⟩
        rintro ⟨-, -, e, he, hef⟩
        exact absurd hef (hnone e he)
      · intro e he htrue
        rw [hdd1] at htrue
        cases htrue
    | cons a as =>
      have hex : ∃ e ∈ c.entries, e.filename = f := by
        by_contra hne
        have hall : ∀ e ∈ c.entries, e.filename ≠ f := by
          intro e he hef
          exact hne ⟨e, he, hef⟩
        have h0 := (matchingIds_eq_nil_iff c.entries f).mpr hall
        rw [h0] at hms
        exact (List.cons_ne_nil a as hms.symm).elim
      cases hd : c.deleteRaises with
      | true =>
        have hdd1 : (delete_document c f).1 = false := by
          simp [delete_document, collection_get_ids, collection_delete, hg, hd, hms]
        refine ⟨?_, ?_⟩
        · rw [hdd1]
          refine ⟨fun h0 => (nomatch h0), ?_⟩
          rintro ⟨-, hdf, -⟩
          cases hdf
        · intro e he htrue
          rw [hdd1] at htrue
          cases htrue
      | false =>
        have hdd1 : (delete_document c f).1 = true := by
          simp [delete_document, collection_get_ids, collection_delete, hg, hd, hms]
        have hdd2 : (delete_document c f).2.entries =
            c.entries.filter (fun e => !((a :: as).contains e.id)) := by
          simp [delete_document, collection_get_ids, collection_delete, hg, hd, hms]
        refine ⟨⟨fun _ => ⟨rfl, rfl, hex⟩, fun _ => hdd1⟩, ?_⟩
        intro e he htrue hef
        rw [hdd2] at he
        rw [List.mem_filter] at he
        obtain ⟨hmem, hnc⟩ := he
        have hid : e.id ∈ matchingIds c.entries f := mem_matchingIds c.entries f e hmem hef
        rw [hms] at hid
        have hcont : (a :: as).contains e.id = true := by
          simpa [List.contains] using List.elem_iff.mpr hid
        rw [hcont] at hnc
        cases hnc

/-- Witness for C10 at a concrete collection: one chunk of `a.pdf`, no
store faults; deletion reports `True`. -/
theorem c10_delete_document_contract_witness :
    (delete_document { entries := [{ id := "a_chunk_0", filename := "a.pdf" }],
                       getRaises := false, deleteRaises := false } "a.pdf").1 = true :=
  (c10_delete_document_contract
    { entries := [{ id := "a_chunk_0", filename := "a.pdf" }],
      getRaises := false, deleteRaises := false } "a.pdf").1.mpr
    ⟨rfl, rfl, { id := "a_chunk_0", filename := "a.pdf" }, by simp, rfl⟩

/-- Word-count conservation of the repaired chunker: every body block is
folded into exactly one chunk, so the chunk word counts sum to the body
word total (invariant: an empty accumulator carries count 0). -/
theorem createChunksFixedGo_sum (chunkSize : Nat) (blocks : List TextBlock) :
    ∀ (acc : List String) (wc cid : Nat) (sec : String) (pg : Nat) (hd : Option String),
      (acc = [] → wc = 0) →
      ((createChunksFixedGo chunkSize blocks acc wc cid sec pg hd).map
          (fun c => c.metadata.word_count)).sum =
        wc + ((blocks.filter (fun b => !b.is_heading)).map
          (fun b => countWords b.text)).sum := by
  induction blocks with
  | nil =>
    intro acc wc cid sec pg hd h
    cases acc with
    | nil => simp [createChunksFixedGo, h rfl]
    | cons x xs => simp [createChunksFixedGo]
  | cons b rest ih =>
    intro acc wc cid sec pg hd h
    cases hb : b.is_heading with
    | true =>
      have h1 := ih acc wc cid b.text b.page (some b.text) h
      simp only [createChunksFixedGo, hb, if_true]
      rw [h1]
      simp [hb]
    | false =>
      by_cases hcond : wc + countWords b.text > chunkSize ∧ acc ≠ []
      · have h1 := ih [b.text] (countWords b.text) (cid + 1) b.sectionName b.page hd
          (fun hx => absurd hx (by simp))
        simp only [createChunksFixedGo, hb, Bool.false_eq_true, if_false]
        rw [if_pos hcond]
        simp only [List.map_cons, List.sum_cons, h1, List.filter_cons, hb,
          Bool.not_false, if_true]
      · have h2 := ih (acc ++ [b.text]) (wc + countWords b.text) cid b.sectionName b.page hd
          (fun hx => absurd hx (by simp))
        simp only [createChunksFixedGo, hb, Bool.false_eq_true, if_false]
        rw [if_neg hcond]
        simp only [h2, List.filter_cons, hb, Bool.not_false, if_true,
          List.map_cons, List.sum_cons]
        omega

/-- The repaired chunker drops and duplicates no words: chunk word counts
sum exactly to the body-block word total (the property the spec states for
the chunker, holding once the `chunks_size` slip is repaired). -/
theorem create_chunks_fixed_conserves_words (chunkSize : Nat) (blocks : List TextBlock) :
    ((create_chunks_fixed chunkSize blocks).map (fun c => c.metadata.word_count)).sum =
      ((blocks.filter (fun b => !b.is_heading)).map (fun b => countWords b.text)).sum := by
  simpa [create_chunks_fixed] using
    createChunksFixedGo_sum chunkSize blocks [] 0 0 "unknown" 1 none (fun _ => rfl)

end RagResearchAgent
